import Mathlib

/-!
Shallow embedding of the RISC-V base PMU perf-event driver
(`arch/riscv/kernel/perf_event.c` together with
`arch/riscv/include/asm/perf_event.h`), and proofs about the claims of
its specification.

Machine integers are modelled as `Nat` with explicit reduction modulo
`2 ^ 64` where the C code computes in `u64`/`unsigned long`; C `int`
values that can be negative (counter indices, event codes, errno
returns) are modelled as `Int`.  Hardware CSR reads are an oracle
function from the counter index to the raw register value.
-/

namespace RiscvPerf

/-- `2 ^ 64`, the modulus of `u64` / riscv64 `unsigned long` arithmetic. -/
def U64 : Nat := 2 ^ 64

/-- Truncation to `u64`, the behaviour of C unsigned 64-bit arithmetic. -/
def wrap64 (x : Nat) : Nat := x % U64

/-- `u64` subtraction `a - b` with two's-complement wraparound. -/
def sub64 (a b : Nat) : Nat := (a % U64 + (U64 - b % U64)) % U64

/-- Conversion of a C signed value to `u64`, e.g. `(u64)(-EINVAL)`. -/
def u64_of_int (i : Int) : Nat := (i % (U64 : Int)).toNat

/-! errno constants (`linux/errno.h`): the driver returns negated errnos. -/

def EINVAL : Int := 22

def ENOENT : Int := 2

def ENOSPC : Int := 28

def EBUSY : Int := 16

def EOPNOTSUPP : Int := 95

/-! Constants from `arch/riscv/include/asm/perf_event.h`. -/

def RISCV_BASE_COUNTERS : Nat := 2

def RISCV_EVENT_COUNTERS : Nat := 29

def RISCV_TOTAL_COUNTERS : Nat := RISCV_BASE_COUNTERS + RISCV_EVENT_COUNTERS

def RISCV_PMU_CYCLE : Int := 0

def RISCV_PMU_INSTRET : Int := 2

def RISCV_PMU_HPMCOUNTER3 : Int := 3

def RISCV_PMU_HPMCOUNTER4 : Int := 4

def RISCV_PMU_HPMCOUNTER5 : Int := 5

def RISCV_PMU_HPMCOUNTER6 : Int := 6

def RISCV_PMU_HPMCOUNTER7 : Int := 7

def RISCV_PMU_HPMCOUNTER8 : Int := 8

def RISCV_PMU_HPMCOUNTER_FIRST : Int := 3

/-- `RISCV_PMU_HPMCOUNTER_FIRST + riscv_pmu.num_event_cntr - 1`. -/
def RISCV_PMU_HPMCOUNTER_LAST (num_event_cntr : Nat) : Int :=
  RISCV_PMU_HPMCOUNTER_FIRST + num_event_cntr - 1

def RISCV_OP_UNSUPP : Int := -EOPNOTSUPP

/-! Hardware cache event encoding (`asm/perf_event.h`). -/

def PERF_HW_CACHE_TYPE : Nat := 0

def PERF_HW_CACHE_OP : Nat := 8

def PERF_HW_CACHE_RESULT : Nat := 16

def PERF_HW_CACHE_MASK : Nat := 0xff

/-! `config_base` encoding (`asm/perf_event.h`). -/

def RISCV_PMU_TYPE_MASK : Nat := 0x3

def RISCV_PMU_TYPE_BASE : Nat := 0x1

def RISCV_PMU_TYPE_EVENT : Nat := 0x2

/-- Modelled from the spec: constants of the generic perf-event framework
(`linux/perf_event.h` and its uapi header are outside `src/`).  The
`PERF_TYPE_*` values select the request kind in `event_init`, the
`PERF_COUNT_HW_CACHE_*_MAX` values are the domain maxima of the cache
tuple (spec section 4.1), and the values themselves are the framework's
published ABI. -/
def PERF_TYPE_HARDWARE : Nat := 0

def PERF_TYPE_SOFTWARE : Nat := 1

def PERF_TYPE_HW_CACHE : Nat := 3

def PERF_TYPE_RAW : Nat := 4

def PERF_COUNT_HW_CACHE_MAX : Nat := 7

def PERF_COUNT_HW_CACHE_OP_MAX : Nat := 3

def PERF_COUNT_HW_CACHE_RESULT_MAX : Nat := 2

/-- Modelled from the spec: event scheduling flag bits of the generic
framework (outside `src/`): `PERF_EF_START 0x01`, `PERF_EF_RELOAD 0x02`,
`PERF_EF_UPDATE 0x04`. -/
def PERF_EF_START : Nat := 1

def PERF_EF_RELOAD : Nat := 2

def PERF_EF_UPDATE : Nat := 4

/-- Modelled from the spec: hardware-event state bits of the generic
framework (outside `src/`): `PERF_HES_STOPPED 0x01` (spec state
`Stopped`), `PERF_HES_UPTODATE 0x02` (the auxiliary up-to-date flag). -/
def PERF_HES_STOPPED : Nat := 1

def PERF_HES_UPTODATE : Nat := 2

/-! Data model -/

/-- The fields of `struct hw_perf_event` the driver uses. -/
structure HwPerfEvent where
  config_base : Nat
  config : Int
  idx : Int
  state : Nat
  prev_count : Nat
deriving DecidableEq

/-- A `struct perf_event` restricted to the fields the driver touches:
the request attributes, the hardware-event block, and the accumulated
logical count `event->count` (a 64-bit value). -/
structure PerfEvent where
  attr_type : Nat
  attr_config : Nat
  hw : HwPerfEvent
  count : Nat
deriving DecidableEq

/-- `struct riscv_pmu`.  Its C declaration lives in a header outside
`src/`; the fields are transcribed from their uses in
`arch/riscv/kernel/perf_event.c` and from the spec's
`PlatformCounterFile` (section 3).  `num_event_cntr` is the field the
`RISCV_PMU_HPMCOUNTER_LAST` macro reads. -/
structure RiscvPMU where
  max_events : Nat
  hw_events : List Int
  cache_events : List (List (List Int))
  counter_width : Nat
  num_counters : Nat
  num_event_cntr : Nat
  irq : Int

/-- `riscv_hw_event_map` from the source: `PERF_COUNT_HW_CPU_CYCLES` maps
to the cycle counter, `PERF_COUNT_HW_INSTRUCTIONS` to instret, the other
five listed generic hardware events to `RISCV_OP_UNSUPP`. -/
def riscv_hw_event_map : List Int :=
  [RISCV_PMU_CYCLE, RISCV_PMU_INSTRET, RISCV_OP_UNSUPP, RISCV_OP_UNSUPP,
   RISCV_OP_UNSUPP, RISCV_OP_UNSUPP, RISCV_OP_UNSUPP]

/-- `riscv_cache_event_map` from the source: a
`PERF_COUNT_HW_CACHE_MAX × OP_MAX × RESULT_MAX` (7 × 3 × 2) array.  The
six tiers L1D, L1I, LL, DTLB, ITLB, BPU are each initialised with
`RISCV_OP_UNSUPP` in every entry; the seventh tier (NODE) has no
initialiser in the C source, so C zero-initialises its entries to `0`. -/
def riscv_cache_event_map : List (List (List Int)) :=
  List.replicate 6 (List.replicate 3 (List.replicate 2 RISCV_OP_UNSUPP)) ++
    [List.replicate 3 (List.replicate 2 0)]

/-- `riscv_base_pmu` from the source.  `num_event_cntr` has no
initialiser in the C designated-initialiser list, so it is
zero-initialised. -/
def riscv_base_pmu : RiscvPMU :=
  { max_events := riscv_hw_event_map.length
    hw_events := riscv_hw_event_map
    cache_events := riscv_cache_event_map
    counter_width := 63
    num_counters := RISCV_BASE_COUNTERS + 0
    num_event_cntr := 0
    irq := -1 }

/-! Methods for checking and getting PMU information -/

/-- `is_base_counter`. -/
def is_base_counter (idx : Int) : Bool :=
  idx = RISCV_PMU_CYCLE || idx = RISCV_PMU_INSTRET

/-- `is_event_counter`; `RISCV_PMU_HPMCOUNTER_LAST` expands to a read of
`riscv_pmu.num_event_cntr`, so the PMU description is a parameter. -/
def is_event_counter (pmu : RiscvPMU) (idx : Int) : Bool :=
  RISCV_PMU_HPMCOUNTER_FIRST ≤ idx &&
    idx ≤ RISCV_PMU_HPMCOUNTER_LAST pmu.num_event_cntr

/-! Event-code mappers -/

/-- `riscv_map_hw_event`: bounds check against `max_events`, then index
`hw_events`. -/
def riscv_map_hw_event (pmu : RiscvPMU) (config : Nat) : Int :=
  if pmu.max_events ≤ config then -EINVAL
  else pmu.hw_events.getD config 0

/-- `type = (config >> PERF_HW_CACHE_TYPE) & PERF_HW_CACHE_MASK`. -/
def cache_tuple_type (config : Nat) : Nat :=
  (config >>> PERF_HW_CACHE_TYPE) &&& PERF_HW_CACHE_MASK

/-- `op = (config >> PERF_HW_CACHE_OP) & PERF_HW_CACHE_MASK`. -/
def cache_tuple_op (config : Nat) : Nat :=
  (config >>> PERF_HW_CACHE_OP) &&& PERF_HW_CACHE_MASK

/-- `result = (config >> PERF_HW_CACHE_RESULT) & PERF_HW_CACHE_MASK`. -/
def cache_tuple_result (config : Nat) : Nat :=
  (config >>> PERF_HW_CACHE_RESULT) &&& PERF_HW_CACHE_MASK

/-- `riscv_cache_event_map[type][op][result]`. -/
def cache_entry (type op result : Nat) : Int :=
  ((riscv_cache_event_map.getD type []).getD op []).getD result 0

/-- `riscv_map_cache_event`: extract the `(type, op, result)` components
from `config`, range-check each, then index the static
`riscv_cache_event_map`; an `RISCV_OP_UNSUPP` entry yields `-EINVAL`
(the subsequent `ret == RISCV_OP_UNSUPP ? -ENOENT : ret` ternary of the
source is kept although its `-ENOENT` arm is unreachable). -/
def riscv_map_cache_event (config : Nat) : Int :=
  if PERF_COUNT_HW_CACHE_MAX ≤ cache_tuple_type config ∨
      PERF_COUNT_HW_CACHE_OP_MAX ≤ cache_tuple_op config ∨
      PERF_COUNT_HW_CACHE_RESULT_MAX ≤ cache_tuple_result config then
    -EINVAL
  else
    let ret := cache_entry (cache_tuple_type config) (cache_tuple_op config)
      (cache_tuple_result config)
    if ret = RISCV_OP_UNSUPP then -EINVAL
    else if ret = RISCV_OP_UNSUPP then -ENOENT
    else ret

/-! Low-level functions: reading counters -/

/-- `read_counter`: dispatch on the counter index to the corresponding
CSR read; any other index hits the default arm and returns
`(u64)(-EINVAL)`.  `csr` is the hardware oracle giving the raw value of
each readable counter CSR. -/
def read_counter (csr : Int → Nat) (idx : Int) : Nat :=
  if idx = RISCV_PMU_CYCLE then wrap64 (csr idx)
  else if idx = RISCV_PMU_INSTRET then wrap64 (csr idx)
  else if idx = RISCV_PMU_HPMCOUNTER3 then wrap64 (csr idx)
  else if idx = RISCV_PMU_HPMCOUNTER4 then wrap64 (csr idx)
  else if idx = RISCV_PMU_HPMCOUNTER5 then wrap64 (csr idx)
  else if idx = RISCV_PMU_HPMCOUNTER6 then wrap64 (csr idx)
  else if idx = RISCV_PMU_HPMCOUNTER7 then wrap64 (csr idx)
  else if idx = RISCV_PMU_HPMCOUNTER8 then wrap64 (csr idx)
  else u64_of_int (-EINVAL)

/-! The read/accumulate engine -/

/-- `riscv_pmu_read`: read the raw counter, mask the difference from the
previously observed raw value to `counter_width` bits, and fold the
delta into `event->count`.  The `local64_cmpxchg` retry loop of the
source resolves in one iteration in this single-reader embedding, so it
is elided; `(1ULL << counter_width)` is taken modulo `2 ^ 64` as on the
hardware. -/
def riscv_pmu_read (pmu : RiscvPMU) (csr : Int → Nat) (event : PerfEvent) :
    PerfEvent :=
  let prev_raw_count := event.hw.prev_count
  let new_raw_count := read_counter csr event.hw.idx
  let delta := sub64 new_raw_count prev_raw_count &&&
    sub64 (wrap64 (1 <<< pmu.counter_width)) 1
  { event with
      hw := { event.hw with prev_count := new_raw_count }
      count := wrap64 (event.count + delta) }

/-! Per-core state and the counter allocator -/

/-- Bitwise complement of a 64-bit `unsigned long` (`~x`), expressed as
exclusive-or with the all-ones word. -/
def not64 (m : Nat) : Nat := m % U64 ^^^ (U64 - 1)

/-- `__set_bit(n, addr)` on a single-word bitmap. -/
def set_bit (n : Nat) (m : Nat) : Nat := m ||| (1 <<< n)

/-- `__clear_bit(n, addr)` on a single-word bitmap. -/
def clear_bit (n : Nat) (m : Nat) : Nat := m &&& not64 (1 <<< n)

/-- Modelled from the spec: the kernel's `find_next_bit` (implemented
outside `src/`) — the lowest-numbered set bit of `mask` with index in
`[offset, size)`, or `size` when no such bit exists (spec section 4.2:
scan for the lowest-numbered free bit). -/
def find_next_bit (mask : Nat) (size offset : Nat) : Nat :=
  if offset < size then
    if mask.testBit offset then offset
    else find_next_bit mask size (offset + 1)
  else size
termination_by size - offset
decreasing_by omega

/-- The fields of `struct cpu_hw_events` the driver uses: the number of
events bound on this core, the occupancy bitmap of counter slots, and
the per-slot back-references to the bound events. -/
structure CpuHwEvents where
  n_events : Int
  used_cntr_mask : Nat
  events : Int → Option PerfEvent

/-- `get_available_counter`: dispatch on the counter class recorded in
`config_base`.  Base class: the slot is the resolved code itself,
checked by `is_base_counter`.  Event (generic) class: scan the
complement of the occupancy bitmap for the lowest free bit starting at
bit 3, bounded by `RISCV_PMU_HPMCOUNTER_LAST`, checked by
`is_event_counter`.  On success the chosen bit is set in the bitmap and
the slot returned; on failure `-ENOSPC` (bad class: `-ENOENT`). -/
def get_available_counter (pmu : RiscvPMU) (cpuc : CpuHwEvents)
    (event : PerfEvent) : CpuHwEvents × Int :=
  let config_base := event.hw.config_base &&& RISCV_PMU_TYPE_MASK
  if config_base = RISCV_PMU_TYPE_BASE then
    let ret := event.hw.config
    if ¬ is_base_counter ret then (cpuc, -ENOSPC)
    else
      ({ cpuc with used_cntr_mask := set_bit ret.toNat cpuc.used_cntr_mask },
        ret)
  else if config_base = RISCV_PMU_TYPE_EVENT then
    let mask := not64 cpuc.used_cntr_mask
    let ret := find_next_bit mask
      (RISCV_PMU_HPMCOUNTER_LAST pmu.num_event_cntr).toNat 3
    if ¬ is_event_counter pmu ret then (cpuc, -ENOSPC)
    else
      ({ cpuc with used_cntr_mask := set_bit ret cpuc.used_cntr_mask },
        (ret : Int))
  else (cpuc, -ENOENT)

/-! Enabling, disabling, and the start/stop/del state machine -/

/-- `riscv_pmu_enable_event`: programs the event selector of a generic
counter (a hardware write with no modelled software state) and captures
the current raw counter value as the delta baseline `prev_count`. -/
def riscv_pmu_enable_event (csr : Int → Nat) (event : PerfEvent) :
    PerfEvent :=
  { event with
      hw := { event.hw with prev_count := read_counter csr event.hw.idx } }

/-- `riscv_pmu_disable_event`: clears the event selector of a generic
counter — a hardware write only, no modelled software state changes. -/
def riscv_pmu_disable_event (event : PerfEvent) : PerfEvent := event

/-- Result of `riscv_pmu_stop`: the updated event, whether
`riscv_pmu_disable_event` was invoked, and whether the count-updating
`pmu->read` was invoked. -/
structure StopResult where
  event : PerfEvent
  disable_invoked : Bool
  read_invoked : Bool

/-- `riscv_pmu_stop`: bail out on an unbound event; otherwise disable
the event (unconditionally — the already-stopped diagnostic
`WARN_ON_ONCE(hwc->state & PERF_HES_STOPPED)` does not return), set the
`STOPPED` bit, and if an update is requested while the count is not yet
up to date, read the counter and set the `UPTODATE` bit. -/
def riscv_pmu_stop (pmu : RiscvPMU) (csr : Int → Nat) (event : PerfEvent)
    (flags : Nat) : StopResult :=
  if event.hw.idx = -1 then
    { event := event, disable_invoked := false, read_invoked := false }
  else
    let ev0 := riscv_pmu_disable_event event
    let st := ev0.hw.state ||| PERF_HES_STOPPED
    let ev1 := { ev0 with hw := { ev0.hw with state := st } }
    if flags &&& PERF_EF_UPDATE ≠ 0 ∧ st &&& PERF_HES_UPTODATE = 0 then
      let ev2 := riscv_pmu_read pmu csr ev1
      { event :=
          { ev2 with hw := { ev2.hw with state := st ||| PERF_HES_UPTODATE } }
        disable_invoked := true
        read_invoked := true }
    else
      { event := ev1, disable_invoked := true, read_invoked := false }

/-- Result of `riscv_pmu_start`: the updated event and whether
`riscv_pmu_enable_event` (selector programming + baseline capture) was
invoked. -/
structure StartResult where
  event : PerfEvent
  enable_invoked : Bool

/-- `riscv_pmu_start`: return immediately (diagnosed no-op) when the
event is not in the `STOPPED` state or is unbound; otherwise clear the
state word and enable the event (the `PERF_EF_RELOAD` arm of the source
only carries a diagnostic and a comment, no state change). -/
def riscv_pmu_start (pmu : RiscvPMU) (csr : Int → Nat) (event : PerfEvent)
    (flags : Nat) : StartResult :=
  if event.hw.state &&& PERF_HES_STOPPED = 0 then
    { event := event, enable_invoked := false }
  else if event.hw.idx = -1 then
    { event := event, enable_invoked := false }
  else
    let ev1 := { event with hw := { event.hw with state := 0 } }
    { event := riscv_pmu_enable_event csr ev1, enable_invoked := true }

/-- Result of `riscv_pmu_del`: the updated per-core state, the updated
event, and whether `pmu->stop` was invoked by `del` itself. -/
structure DelResult where
  cpuc : CpuHwEvents
  event : PerfEvent
  stop_invoked : Bool

/-- `riscv_pmu_del`: decrement `n_events`, clear the event's bit in the
occupancy bitmap, drop the back-reference, then call
`pmu->stop(event, PERF_EF_UPDATE)`. -/
def riscv_pmu_del (pmu : RiscvPMU) (csr : Int → Nat) (cpuc : CpuHwEvents)
    (event : PerfEvent) (flags : Nat) : DelResult :=
  let cpuc1 : CpuHwEvents :=
    { n_events := cpuc.n_events - 1
      used_cntr_mask := clear_bit event.hw.idx.toNat cpuc.used_cntr_mask
      events := fun i => if i = event.hw.idx then none else cpuc.events i }
  let s := riscv_pmu_stop pmu csr event PERF_EF_UPDATE
  { cpuc := cpuc1, event := s.event, stop_invoked := true }

/-! Event initialisation / finalisation and hardware reservation -/

/-- Process-wide reservation bookkeeping: the `riscv_active_events`
atomic counter, whether the PMC hardware (irq line) is currently held,
and how many successful reserve and release actions have occurred (the
latter two fields exist to state the lifecycle claims). -/
structure ReserveState where
  active : Int
  reserved : Bool
  reserves : Nat
  releases : Nat
deriving DecidableEq

/-- `riscv_event_destroy` / `release_pmc_hardware`: decrement
`riscv_active_events`; when it reaches zero, release the hardware. -/
def riscv_event_destroy (s : ReserveState) : ReserveState :=
  if s.active - 1 = 0 then
    { s with active := s.active - 1, reserved := false,
             releases := s.releases + 1 }
  else { s with active := s.active - 1 }

/-- Conversion of a `u64` to a C `int` (the `PERF_TYPE_RAW` arm assigns
`attr->config` to `int code`): truncation to 32 bits, two's
complement. -/
def int32_of_u64 (x : Nat) : Int :=
  if x % 2 ^ 32 < 2 ^ 31 then (x % 2 ^ 32 : Nat)
  else (x % 2 ^ 32 : Nat) - 2 ^ 32

/-- Result of `riscv_event_init`: the reservation state after the call,
the return code (0 on success), and on success the initialised
`hw_perf_event` fields `(config_base, config, idx)`. -/
structure InitResult where
  rstate : ReserveState
  ret : Int
  hwc : Option (Nat × Int × Int)

/-- `riscv_event_init`.  `reserve_err` is the result
`reserve_pmc_hardware` would report (0 on success; for the base PMU,
`irq < 0` means no irq is requested and reservation always succeeds).
The `atomic_inc_return == 1` caller reserves the hardware and rolls the
increment back on failure; an unrecognised `attr.type` returns
`-ENOENT` from inside the switch with no rollback; a negative resolved
code triggers `event->destroy` (teardown) and returns the code. -/
def riscv_event_init (pmu : RiscvPMU) (reserve_err : Int)
    (s : ReserveState) (attr_type attr_config : Nat) : InitResult :=
  let s1 := { s with active := s.active + 1 }
  let reserve_step : Option ReserveState :=
    if s1.active = 1 then
      if reserve_err ≠ 0 then none
      else some { s1 with reserved := true, reserves := s1.reserves + 1 }
    else some s1
  match reserve_step with
  | none =>
      { rstate := { s1 with active := s1.active - 1 }, ret := -EBUSY,
        hwc := none }
  | some s2 =>
      if attr_type = PERF_TYPE_HARDWARE ∨ attr_type = PERF_TYPE_HW_CACHE ∨
          attr_type = PERF_TYPE_RAW then
        let code : Int :=
          if attr_type = PERF_TYPE_HARDWARE then
            riscv_map_hw_event pmu attr_config
          else if attr_type = PERF_TYPE_HW_CACHE then
            riscv_map_cache_event attr_config
          else int32_of_u64 attr_config
        let config_base : Nat :=
          if is_base_counter code then RISCV_PMU_TYPE_BASE
          else RISCV_PMU_TYPE_EVENT
        if code < 0 then
          { rstate := riscv_event_destroy s2, ret := code, hwc := none }
        else
          { rstate := s2, ret := 0, hwc := some (config_base, code, -1) }
      else
        { rstate := s2, ret := -ENOENT, hwc := none }

/-- A clean boot state: no live events, hardware not reserved. -/
def initial_reserve_state : ReserveState :=
  { active := 0, reserved := false, reserves := 0, releases := 0 }

/-- `n` consecutive successful `riscv_event_init` calls for the cycle
counter (`PERF_TYPE_HARDWARE`, config 0) on the base PMU. -/
def init_trace : Nat → ReserveState → ReserveState
  | 0, s => s
  | n + 1, s =>
      init_trace n
        (riscv_event_init riscv_base_pmu 0 s PERF_TYPE_HARDWARE 0).rstate

/-- `n` consecutive `riscv_event_destroy` calls. -/
def destroy_trace : Nat → ReserveState → ReserveState
  | 0, s => s
  | n + 1, s => destroy_trace n (riscv_event_destroy s)

/-- The bit width to which `riscv_pmu_read` masks the delta: the source
computes the mask as `(1ULL << riscv_pmu->counter_width) - 1`, reading
only the per-PMU `counter_width` field — the event (and hence its
counter's class) does not enter the computation. -/
def riscv_pmu_read_mask_width (pmu : RiscvPMU) (event : PerfEvent) : Nat :=
  pmu.counter_width

/-! Arithmetic helper lemmas about the delta computation. -/

theorem wrap64_eq_of_lt {a : Nat} (h : a < U64) : wrap64 a = a :=
  Nat.mod_eq_of_lt h

theorem sub64_eq_of_lt {a b : Nat} (ha : a < U64) (hb : b < U64) :
    sub64 a b = (a + (U64 - b)) % U64 := by
  unfold sub64
  rw [Nat.mod_eq_of_lt ha, Nat.mod_eq_of_lt hb]

theorem two_pow_lt_U64 {w : Nat} (hw : w ≤ 63) : 2 ^ w < U64 := by
  calc 2 ^ w ≤ 2 ^ 63 := Nat.pow_le_pow_right (by norm_num) hw
  _ < U64 := by unfold U64; norm_num

/-- The mask `(1ULL << w) - 1` computed by the source equals
`2 ^ w - 1` for widths below 64. -/
theorem mask_eq {w : Nat} (hw : w ≤ 63) :
    sub64 (wrap64 (1 <<< w)) 1 = 2 ^ w - 1 := by
  have h2 : 2 ^ w < U64 := two_pow_lt_U64 hw
  have h1 : (1 : Nat) ≤ 2 ^ w := Nat.one_le_two_pow
  rw [Nat.one_shiftLeft, wrap64_eq_of_lt h2,
    sub64_eq_of_lt h2 (by unfold U64; norm_num)]
  have h64 : (1 : Nat) < U64 := by unfold U64; norm_num
  have : 2 ^ w + (U64 - 1) = U64 + (2 ^ w - 1) := by omega
  rw [this, Nat.add_mod_left, Nat.mod_eq_of_lt (by omega)]

/-- Core delta correctness: if the previous raw value is `prev < 2 ^ w`
and the new raw value is `(prev + k) % 2 ^ w` (the width-`w` counter
advanced by `k`), the masked wrapped difference is `k % 2 ^ w`. -/
theorem delta_eq {w prev : Nat} (k : Nat) (hw : w ≤ 63)
    (hprev : prev < 2 ^ w) :
    sub64 ((prev + k) % 2 ^ w) prev &&& (2 ^ w - 1) = k % 2 ^ w := by
  have h2 : 2 ^ w < U64 := two_pow_lt_U64 hw
  have ha : (prev + k) % 2 ^ w < U64 :=
    lt_trans (Nat.mod_lt _ (by positivity)) h2
  have hb : prev < U64 := lt_trans hprev h2
  have hdvd : 2 ^ w ∣ U64 := by
    unfold U64; exact Nat.pow_dvd_pow 2 (by omega)
  rw [sub64_eq_of_lt ha hb, Nat.and_pow_two_sub_one_eq_mod,
    Nat.mod_mod_of_dvd _ hdvd]
  have hstep : ((prev + k) % 2 ^ w + (U64 - prev)) % 2 ^ w
      = (prev + k + (U64 - prev)) % 2 ^ w :=
    Nat.ModEq.add_right _ (Nat.mod_modEq _ _)
  rw [hstep]
  have hrw : prev + k + (U64 - prev) = k + U64 := by omega
  rw [hrw]
  obtain ⟨c, hc⟩ := hdvd
  rw [hc, Nat.add_mul_mod_self_left]

/-- The accumulated count after one invocation of the read engine,
spelled out. -/
theorem riscv_pmu_read_count (pmu : RiscvPMU) (csr : Int → Nat)
    (ev : PerfEvent) :
    (riscv_pmu_read pmu csr ev).count =
      wrap64 (ev.count +
        (sub64 (read_counter csr ev.hw.idx) ev.hw.prev_count &&&
          sub64 (wrap64 (1 <<< pmu.counter_width)) 1)) := rfl

/-- The read engine stores the newly read raw value as the baseline. -/
theorem riscv_pmu_read_prev (pmu : RiscvPMU) (csr : Int → Nat)
    (ev : PerfEvent) :
    (riscv_pmu_read pmu csr ev).hw.prev_count =
      read_counter csr ev.hw.idx := rfl

/-- The read engine does not change the bound counter index. -/
theorem riscv_pmu_read_idx (pmu : RiscvPMU) (csr : Int → Nat)
    (ev : PerfEvent) :
    (riscv_pmu_read pmu csr ev).hw.idx = ev.hw.idx := rfl

/-- Claim C1: with counter width `w`, a raw advance of `k` between two
reads increases `accumulated_count` by `k` when `k < 2 ^ w` and by
`k % 2 ^ w` when the counter wraps; and in the width-8 scenario with
successive raw values 250, 5, 10 the two read deltas are 11 and 5 and
the total accumulated count is 16. -/
theorem c1_read_accumulates_mod_width :
    (∀ (w k prev c0 : Nat) (csr : Int → Nat) (ev : PerfEvent)
        (pmu : RiscvPMU),
        w ≤ 63 → prev < 2 ^ w → c0 + 2 ^ w ≤ U64 →
        ev.hw.idx = RISCV_PMU_CYCLE → ev.hw.prev_count = prev →
        ev.count = c0 → csr RISCV_PMU_CYCLE = (prev + k) % 2 ^ w →
        pmu.counter_width = w →
        (riscv_pmu_read pmu csr ev).count = c0 + k % 2 ^ w ∧
          (k < 2 ^ w → (riscv_pmu_read pmu csr ev).count = c0 + k)) ∧
    (∀ pmu8 : RiscvPMU, pmu8.counter_width = 8 →
      ∀ ev0 : PerfEvent, ev0.hw.idx = 0 → ev0.hw.prev_count = 250 →
        ev0.count = 0 →
        (riscv_pmu_read pmu8 (fun _ => 5) ev0).count = 11 ∧
          (riscv_pmu_read pmu8 (fun _ => 10)
            (riscv_pmu_read pmu8 (fun _ => 5) ev0)).count = 16) := by
  have hA : ∀ (w k prev c0 : Nat) (csr : Int → Nat) (ev : PerfEvent)
      (pmu : RiscvPMU),
      w ≤ 63 → prev < 2 ^ w → c0 + 2 ^ w ≤ U64 →
      ev.hw.idx = RISCV_PMU_CYCLE → ev.hw.prev_count = prev →
      ev.count = c0 → csr RISCV_PMU_CYCLE = (prev + k) % 2 ^ w →
      pmu.counter_width = w →
      (riscv_pmu_read pmu csr ev).count = c0 + k % 2 ^ w ∧
        (k < 2 ^ w → (riscv_pmu_read pmu csr ev).count = c0 + k) := by
    intro w k prev c0 csr ev pmu hw hprev hc0 hidx hprevc hcount hcsr hcw
    have h2 : 2 ^ w < U64 := two_pow_lt_U64 hw
    have hmod : (prev + k) % 2 ^ w < U64 :=
      lt_trans (Nat.mod_lt _ (by positivity)) h2
    have hread : read_counter csr ev.hw.idx = (prev + k) % 2 ^ w := by
      rw [hidx]
      unfold read_counter
      rw [if_pos rfl, hcsr, wrap64_eq_of_lt hmod]
    have hklt : k % 2 ^ w < 2 ^ w := Nat.mod_lt _ (by positivity)
    have hkey : (riscv_pmu_read pmu csr ev).count = c0 + k % 2 ^ w := by
      rw [riscv_pmu_read_count, hread, hprevc, hcount, hcw, mask_eq hw,
        delta_eq k hw hprev, wrap64_eq_of_lt (by omega)]
    refine ⟨hkey, fun hk => ?_⟩
    rw [hkey, Nat.mod_eq_of_lt hk]
  refine ⟨hA, ?_⟩
  intro pmu8 hcw ev0 hidx hprev hcount
  have hidx0 : ev0.hw.idx = RISCV_PMU_CYCLE := hidx
  have e1 := hA 8 11 250 0 (fun _ => 5) ev0 pmu8 (by norm_num)
    (by norm_num) (by unfold U64; norm_num) hidx0 hprev hcount
    (by norm_num) hcw
  have h1 : (riscv_pmu_read pmu8 (fun _ => 5) ev0).count = 11 := by
    have := e1.2 (by norm_num)
    omega
  refine ⟨h1, ?_⟩
  have h1idx : (riscv_pmu_read pmu8 (fun _ => 5) ev0).hw.idx =
      RISCV_PMU_CYCLE := by
    rw [riscv_pmu_read_idx, hidx0]
  have h1prev : (riscv_pmu_read pmu8 (fun _ => 5) ev0).hw.prev_count
      = 5 := by
    rw [riscv_pmu_read_prev, hidx0]
    unfold read_counter
    rw [if_pos rfl]
    decide
  have e2 := hA 8 5 5 11 (fun _ => 10)
    (riscv_pmu_read pmu8 (fun _ => 5) ev0) pmu8 (by norm_num)
    (by norm_num) (by unfold U64; norm_num) h1idx h1prev h1
    (by norm_num) hcw
  have := e2.2 (by norm_num)
  omega

/-- Claim C2 counterexample: the masking width used by the read engine
is the same for a fixed-class event (cycle counter, slot 0) and a
generic-class event (hpmcounter3, slot 3) — it is the single per-PMU
constant `counter_width = 63`, not a per-class lookup. -/
theorem c2_counterexample :
    riscv_pmu_read_mask_width riscv_base_pmu
        { attr_type := 0, attr_config := 0,
          hw := { config_base := RISCV_PMU_TYPE_BASE, config := 0, idx := 0,
                  state := 0, prev_count := 0 }, count := 0 } =
      riscv_pmu_read_mask_width riscv_base_pmu
        { attr_type := 4, attr_config := 5,
          hw := { config_base := RISCV_PMU_TYPE_EVENT, config := 5, idx := 3,
                  state := 0, prev_count := 0 }, count := 0 } ∧
    riscv_pmu_read_mask_width riscv_base_pmu
        { attr_type := 0, attr_config := 0,
          hw := { config_base := RISCV_PMU_TYPE_BASE, config := 0, idx := 0,
                  state := 0, prev_count := 0 }, count := 0 } =
      riscv_base_pmu.counter_width ∧
    riscv_base_pmu.counter_width = 63 :=
  ⟨rfl, rfl, rfl⟩

/-- Claim C2 (amended): the read engine masks the delta to
`2 ^ counter_width`, where `counter_width` is the single per-PMU
constant (63 for the base PMU), used identically for every event
whatever its counter class. -/
theorem c2_width_is_per_pmu_constant :
    (∀ (pmu : RiscvPMU) (event : PerfEvent),
        riscv_pmu_read_mask_width pmu event = pmu.counter_width) ∧
    riscv_base_pmu.counter_width = 63 ∧
    (∀ (csr : Int → Nat) (event : PerfEvent),
        (riscv_pmu_read riscv_base_pmu csr event).count =
          wrap64 (event.count +
            (sub64 (read_counter csr event.hw.idx) event.hw.prev_count &&&
              (2 ^ 63 - 1)))) := by
  refine ⟨fun _ _ => rfl, rfl, fun csr event => ?_⟩
  rw [riscv_pmu_read_count, show riscv_base_pmu.counter_width = 63 from rfl,
    mask_eq (by norm_num)]

/-- Claim C3 counterexample: the in-bounds tuple `(L1D, READ, ACCESS)`
(config 0) has the `RISCV_OP_UNSUPP` sentinel as its table entry, yet
the mapper fails with `-EINVAL` — the `InvalidRange` error code — and
not with the `Unsupported` code `-EOPNOTSUPP`. -/
theorem c3_counterexample :
    riscv_map_cache_event 0 = -EINVAL ∧
    cache_entry (cache_tuple_type 0) (cache_tuple_op 0)
        (cache_tuple_result 0) = RISCV_OP_UNSUPP ∧
    (-EINVAL : Int) ≠ RISCV_OP_UNSUPP := by
  refine ⟨by decide, by decide, by decide⟩

/-- Claim C3 (amended): the cache mapper fails with `-EINVAL` when a
tuple component is out of its domain bound (never indexing the table),
and for every in-bounds tuple returns exactly
`cache_event_map[tier][op][result]` — except that the `UNSUPPORTED`
sentinel entry also fails with `-EINVAL` (the same code as the range
error), not with a distinct `Unsupported` error. -/
theorem c3_cache_map_entries :
    ∀ config : Nat,
      (PERF_COUNT_HW_CACHE_MAX ≤ cache_tuple_type config ∨
          PERF_COUNT_HW_CACHE_OP_MAX ≤ cache_tuple_op config ∨
          PERF_COUNT_HW_CACHE_RESULT_MAX ≤ cache_tuple_result config →
        riscv_map_cache_event config = -EINVAL) ∧
      (¬ (PERF_COUNT_HW_CACHE_MAX ≤ cache_tuple_type config ∨
          PERF_COUNT_HW_CACHE_OP_MAX ≤ cache_tuple_op config ∨
          PERF_COUNT_HW_CACHE_RESULT_MAX ≤ cache_tuple_result config) →
        (cache_entry (cache_tuple_type config) (cache_tuple_op config)
            (cache_tuple_result config) = RISCV_OP_UNSUPP →
          riscv_map_cache_event config = -EINVAL) ∧
        (cache_entry (cache_tuple_type config) (cache_tuple_op config)
            (cache_tuple_result config) ≠ RISCV_OP_UNSUPP →
          riscv_map_cache_event config =
            cache_entry (cache_tuple_type config) (cache_tuple_op config)
              (cache_tuple_result config))) := by
  intro config
  constructor
  · intro h
    unfold riscv_map_cache_event
    rw [if_pos h]
  · intro h
    constructor
    · intro he
      unfold riscv_map_cache_event
      rw [if_neg h]
      dsimp only
      rw [if_pos he]
    · intro he
      unfold riscv_map_cache_event
      rw [if_neg h]
      dsimp only
      rw [if_neg he, if_neg he]

/-- Witness for the amended C3 at concrete inputs: config 7 has tier 7
(out of bounds) and fails `-EINVAL`; config 6 addresses the NODE tier,
whose zero-initialised entry is returned unchanged. -/
theorem c3_cache_map_entries_witness :
    riscv_map_cache_event 7 = -EINVAL ∧
    riscv_map_cache_event 6 =
      cache_entry (cache_tuple_type 6) (cache_tuple_op 6)
        (cache_tuple_result 6) :=
  ⟨(c3_cache_map_entries 7).1 (by decide),
    ((c3_cache_map_entries 6).2 (by decide)).2 (by decide)⟩

/-- Claim C4 counterexample: the out-of-range index 7 (the map has 7
entries, indices 0–6) fails with `-EINVAL`, not with the `Unsupported`
code `-EOPNOTSUPP`. -/
theorem c4_counterexample :
    riscv_map_hw_event riscv_base_pmu 7 = -EINVAL ∧
    (-EINVAL : Int) ≠ RISCV_OP_UNSUPP := by
  refine ⟨by decide, by decide⟩

/-- Claim C4 (amended): the hardware-event mapper returns exactly the
`hw_event_map` entry for every in-range index (in particular the
`UNSUPPORTED` sentinel entry itself, `-EOPNOTSUPP`, for unsupported
events), and fails with `-EINVAL` — not `Unsupported` — when the index
is out of range. -/
theorem c4_hw_map_entries :
    ∀ config : Nat,
      (riscv_base_pmu.max_events ≤ config →
        riscv_map_hw_event riscv_base_pmu config = -EINVAL) ∧
      (config < riscv_base_pmu.max_events →
        riscv_map_hw_event riscv_base_pmu config =
          riscv_base_pmu.hw_events.getD config 0) := by
  intro config
  constructor
  · intro h
    unfold riscv_map_hw_event
    rw [if_pos h]
  · intro h
    unfold riscv_map_hw_event
    rw [if_neg (not_le.mpr h)]

/-- Witness for the amended C4 at concrete inputs: index 7 is out of
range and fails `-EINVAL`; index 2 (`CACHE_REFERENCES`) is in range and
returns its entry (the sentinel `-EOPNOTSUPP`). -/
theorem c4_hw_map_entries_witness :
    riscv_map_hw_event riscv_base_pmu 7 = -EINVAL ∧
    riscv_map_hw_event riscv_base_pmu 2 =
      riscv_base_pmu.hw_events.getD 2 0 :=
  ⟨(c4_hw_map_entries 7).1 (by decide), (c4_hw_map_entries 2).2 (by decide)⟩

/-- Claim C10: `read_counter` is partial over the declared counter
space: every index outside cycle (0), instret (2) and hpmcounter 3–8
returns the error value `(u64)(-EINVAL)`; the six slots 3–8 are the only
readable generic slots although the header declares
`RISCV_EVENT_COUNTERS = 29`. -/
theorem c10_read_counter_domain :
    (∀ (csr : Int → Nat) (idx : Int),
        ¬ (idx = 0 ∨ idx = 2 ∨ (3 ≤ idx ∧ idx ≤ 8)) →
        read_counter csr idx = u64_of_int (-EINVAL)) ∧
    (∀ (csr : Int → Nat) (idx : Int), 3 ≤ idx → idx ≤ 8 →
        read_counter csr idx = wrap64 (csr idx)) ∧
    u64_of_int (-EINVAL) = U64 - 22 ∧
    RISCV_EVENT_COUNTERS = 29 := by
  refine ⟨?_, ?_, by decide, rfl⟩
  · intro csr idx h
    simp only [read_counter, RISCV_PMU_CYCLE, RISCV_PMU_INSTRET,
      RISCV_PMU_HPMCOUNTER3, RISCV_PMU_HPMCOUNTER4, RISCV_PMU_HPMCOUNTER5,
      RISCV_PMU_HPMCOUNTER6, RISCV_PMU_HPMCOUNTER7, RISCV_PMU_HPMCOUNTER8]
    split_ifs with h1 h2 h3 h4 h5 h6 h7 h8
    all_goals first
      | rfl
      | (exfalso; omega)
  · intro csr idx h3 h8
    simp only [read_counter, RISCV_PMU_CYCLE, RISCV_PMU_INSTRET,
      RISCV_PMU_HPMCOUNTER3, RISCV_PMU_HPMCOUNTER4, RISCV_PMU_HPMCOUNTER5,
      RISCV_PMU_HPMCOUNTER6, RISCV_PMU_HPMCOUNTER7, RISCV_PMU_HPMCOUNTER8]
    split_ifs with h1 h2 hh3 hh4 hh5 hh6 hh7 hh8
    all_goals first
      | rfl
      | (exfalso; omega)

/-- Witness for C10 at concrete inputs: the undeclared slot 9 returns
the error value; slot 3 returns the raw hardware value. -/
theorem c10_read_counter_domain_witness :
    read_counter (fun _ => 0) 9 = u64_of_int (-EINVAL) ∧
    read_counter (fun _ => 7) 3 = wrap64 7 :=
  ⟨c10_read_counter_domain.1 (fun _ => 0) 9 (by decide),
    c10_read_counter_domain.2.1 (fun _ => 7) 3 (by decide) (by decide)⟩

/-- Claim C5 counterexample: from a clean state, `riscv_event_init`
with an unrecognised event type (`PERF_TYPE_SOFTWARE`) fails with
`-ENOENT` from inside the switch, leaving the reservation counter at 1 —
higher than the 0 it was before the call, with the hardware reserved. -/
theorem c5_counterexample :
    (riscv_event_init riscv_base_pmu 0 initial_reserve_state
        PERF_TYPE_SOFTWARE 0).ret = -ENOENT ∧
    (riscv_event_init riscv_base_pmu 0 initial_reserve_state
        PERF_TYPE_SOFTWARE 0).rstate.active = 1 ∧
    initial_reserve_state.active = 0 := by
  refine ⟨by decide, by decide, by decide⟩

/-- Claim C5 (amended): for the recognised request types — hardware,
cache and raw — every failing `riscv_event_init` rolls the reservation
counter back fully (reservation failure decrements it again; a failed
code resolution triggers the destroy path); but an unrecognised event
type returns `-ENOENT` without the rollback. -/
theorem c5_init_rollback :
    ∀ (s : ReserveState) (reserve_err : Int) (attr_type attr_config : Nat),
      attr_type = PERF_TYPE_HARDWARE ∨ attr_type = PERF_TYPE_HW_CACHE ∨
        attr_type = PERF_TYPE_RAW →
      (riscv_event_init riscv_base_pmu reserve_err s
        attr_type attr_config).ret ≠ 0 →
      (riscv_event_init riscv_base_pmu reserve_err s
        attr_type attr_config).rstate.active = s.active := by
  intro s reserve_err ty cfg hty hret
  unfold riscv_event_init at hret ⊢
  dsimp only at hret ⊢
  by_cases h1 : s.active + 1 = 1
  · rw [if_pos h1] at hret ⊢
    by_cases h2 : reserve_err ≠ 0
    · rw [if_pos h2] at hret ⊢
      dsimp only at hret ⊢
      omega
    · rw [if_neg h2] at hret ⊢
      dsimp only at hret ⊢
      rw [if_pos hty] at hret ⊢
      by_cases h3 : (if ty = PERF_TYPE_HARDWARE then
            riscv_map_hw_event riscv_base_pmu cfg
          else if ty = PERF_TYPE_HW_CACHE then riscv_map_cache_event cfg
          else int32_of_u64 cfg) < 0
      · rw [if_pos h3] at hret ⊢
        dsimp only
        unfold riscv_event_destroy
        split_ifs <;> dsimp only <;> omega
      · rw [if_neg h3] at hret
        dsimp only at hret
        exact absurd rfl hret
  · rw [if_neg h1] at hret ⊢
    dsimp only at hret ⊢
    rw [if_pos hty] at hret ⊢
    by_cases h3 : (if ty = PERF_TYPE_HARDWARE then
          riscv_map_hw_event riscv_base_pmu cfg
        else if ty = PERF_TYPE_HW_CACHE then riscv_map_cache_event cfg
        else int32_of_u64 cfg) < 0
    · rw [if_pos h3] at hret ⊢
      dsimp only
      unfold riscv_event_destroy
      split_ifs <;> dsimp only <;> omega
    · rw [if_neg h3] at hret
      dsimp only at hret
      exact absurd rfl hret

/-- Witness for the amended C5: initialising a `PERF_TYPE_HARDWARE`
event with the unsupported config 2 (`CACHE_REFERENCES`) fails and
leaves the reservation count at its previous value 0. -/
theorem c5_init_rollback_witness :
    (riscv_event_init riscv_base_pmu 0 initial_reserve_state
        PERF_TYPE_HARDWARE 2).rstate.active =
      initial_reserve_state.active :=
  c5_init_rollback initial_reserve_state 0 PERF_TYPE_HARDWARE 2
    (Or.inl rfl) (by decide)

/-- One successful init from a state that already has a live event just
increments the counter: no reserve happens. -/
theorem init_step_steady (s : ReserveState) (h : 1 ≤ s.active) :
    (riscv_event_init riscv_base_pmu 0 s PERF_TYPE_HARDWARE 0).rstate =
      { s with active := s.active + 1 } := by
  unfold riscv_event_init
  dsimp only
  rw [if_neg (by omega : ¬ s.active + 1 = 1)]
  dsimp only
  rw [if_pos (Or.inl rfl)]
  rw [show (if PERF_TYPE_HARDWARE = PERF_TYPE_HARDWARE then
        riscv_map_hw_event riscv_base_pmu 0
      else if PERF_TYPE_HARDWARE = PERF_TYPE_HW_CACHE then
        riscv_map_cache_event 0
      else int32_of_u64 0) = 0 from by decide]
  rw [if_neg (by decide : ¬ (0 : Int) < 0)]

/-- The very first init reserves the hardware exactly once. -/
theorem init_step_first :
    (riscv_event_init riscv_base_pmu 0 initial_reserve_state
        PERF_TYPE_HARDWARE 0).rstate =
      { active := 1, reserved := true, reserves := 1, releases := 0 } := by
  decide

/-- Running `n` further inits from a state with a live event only moves
the active counter. -/
theorem init_trace_steady :
    ∀ (n : Nat) (s : ReserveState), 1 ≤ s.active →
      init_trace n s =
        { active := s.active + n, reserved := s.reserved,
          reserves := s.reserves, releases := s.releases } := by
  intro n
  induction n with
  | zero =>
      intro s h
      show s = _
      simp only [Nat.cast_zero, add_zero]
  | succ n ih =>
      intro s h
      show init_trace n _ = _
      rw [init_step_steady s h]
      rw [ih _ (by dsimp only; omega)]
      dsimp only
      rw [show s.active + 1 + (n : Int) = s.active + ((n + 1 : Nat) : Int)
        from by push_cast; ring]

/-- Running `n` destroys from a state with exactly `n ≥ 1` live events
releases the hardware exactly at the last destroy. -/
theorem destroy_trace_drain :
    ∀ (n : Nat) (r l : Nat), 1 ≤ n →
      destroy_trace n
          { active := (n : Int), reserved := true, reserves := r,
            releases := l } =
        { active := 0, reserved := false, reserves := r,
          releases := l + 1 } := by
  intro n
  induction n with
  | zero => intro r l h; omega
  | succ n ih =>
      intro r l _
      show destroy_trace n (riscv_event_destroy _) = _
      by_cases hn : n = 0
      · subst hn
        show destroy_trace 0 _ = _
        unfold riscv_event_destroy
        norm_num
        rfl
      · have step : riscv_event_destroy
            { active := ((n + 1 : Nat) : Int), reserved := true,
              reserves := r, releases := l } =
            { active := (n : Int), reserved := true, reserves := r,
              releases := l } := by
          unfold riscv_event_destroy
          rw [if_neg (by push_cast; omega)]
          dsimp only
          rw [show ((n + 1 : Nat) : Int) - 1 = (n : Int)
            from by push_cast; ring]
        rw [step]
        exact ih r l (by omega)

/-- Claim C6: hardware is reserved exactly on the 0→1 transition of the
reservation counter and released exactly on the 1→0 transition: `N`
successful inits followed by `N` destroys perform exactly one reserve
and exactly one release, and a destroy that still leaves a live event
(counter ≥ 2 before the call) never releases. -/
theorem c6_reserve_release_lifecycle :
    (∀ N : Nat, 1 ≤ N →
        destroy_trace N (init_trace N initial_reserve_state) =
          { active := 0, reserved := false, reserves := 1,
            releases := 1 }) ∧
    (∀ s : ReserveState, 2 ≤ s.active →
        (riscv_event_destroy s).releases = s.releases ∧
        (riscv_event_destroy s).reserved = s.reserved) := by
  constructor
  · intro N hN
    obtain ⟨m, rfl⟩ : ∃ m, N = m + 1 := ⟨N - 1, by omega⟩
    have h1 : init_trace (m + 1) initial_reserve_state =
        { active := ((m + 1 : Nat) : Int), reserved := true, reserves := 1,
          releases := 0 } := by
      show init_trace m _ = _
      rw [init_step_first, init_trace_steady m _ (by decide)]
      dsimp only
      rw [show (1 : Int) + (m : Int) = ((m + 1 : Nat) : Int)
        from by push_cast; ring]
    rw [h1]
    have := destroy_trace_drain (m + 1) 1 0 (by omega)
    simpa using this
  · intro s hs
    unfold riscv_event_destroy
    rw [if_neg (by omega)]
    exact ⟨rfl, rfl⟩

/-- Witness for C6 at a concrete trace: two inits then two destroys
reserve once and release once; a destroy from a counter of 2 does not
release and leaves the hardware held. -/
theorem c6_reserve_release_lifecycle_witness :
    destroy_trace 2 (init_trace 2 initial_reserve_state) =
      { active := 0, reserved := false, reserves := 1, releases := 1 } ∧
    (riscv_event_destroy
        { active := 2, reserved := true, reserves := 1,
          releases := 0 }).releases =
      ({ active := 2, reserved := true, reserves := 1,
          releases := 0 } : ReserveState).releases :=
  ⟨c6_reserve_release_lifecycle.1 2 (by decide),
    (c6_reserve_release_lifecycle.2
      { active := 2, reserved := true, reserves := 1, releases := 0 }
      (by decide)).1⟩

/-- Witness for C1 at the concrete width-8 scenario (first read). -/
theorem c1_read_accumulates_mod_width_witness :
    (riscv_pmu_read { riscv_base_pmu with counter_width := 8 } (fun _ => 5)
        { attr_type := 0, attr_config := 0,
          hw := { config_base := RISCV_PMU_TYPE_BASE, config := 0, idx := 0,
                  state := 3, prev_count := 250 }, count := 0 }).count
      = 11 :=
  (c1_read_accumulates_mod_width.2 _ rfl _ rfl rfl rfl).1

/-! Bit-level helper lemmas for the state word and the slot bitmap. -/

theorem testBit_not64 (m i : Nat) (h : i < 64) :
    (not64 m).testBit i = !(m.testBit i) := by
  unfold not64 U64
  rw [Nat.testBit_xor, Nat.testBit_mod_two_pow, Nat.testBit_two_pow_sub_one]
  simp [h]

theorem testBit_clear_bit (m n : Nat) (h : n < 64) :
    (clear_bit n m).testBit n = false := by
  simp [clear_bit, testBit_not64 _ _ h, Nat.one_shiftLeft,
    Nat.testBit_two_pow_self]

theorem state_or_stopped_and_stopped (x : Nat) :
    (x ||| PERF_HES_STOPPED) &&& PERF_HES_STOPPED = PERF_HES_STOPPED := by
  apply Nat.eq_of_testBit_eq
  intro i
  simp only [PERF_HES_STOPPED, Nat.testBit_and, Nat.testBit_or]
  cases i with
  | zero => simp
  | succ j => simp [Nat.testBit_add_one]

theorem state_or_stopped_uptodate_and_stopped (x : Nat) :
    ((x ||| PERF_HES_STOPPED) ||| PERF_HES_UPTODATE) &&& PERF_HES_STOPPED =
      PERF_HES_STOPPED := by
  apply Nat.eq_of_testBit_eq
  intro i
  simp only [PERF_HES_STOPPED, PERF_HES_UPTODATE, Nat.testBit_and,
    Nat.testBit_or]
  cases i with
  | zero => simp
  | succ j => simp [Nat.testBit_add_one]

theorem state_or_stopped_and_uptodate (x : Nat) :
    (x ||| PERF_HES_STOPPED) &&& PERF_HES_UPTODATE =
      x &&& PERF_HES_UPTODATE := by
  apply Nat.eq_of_testBit_eq
  intro i
  simp only [PERF_HES_STOPPED, PERF_HES_UPTODATE, Nat.testBit_and,
    Nat.testBit_or]
  cases i with
  | zero => simp
  | succ j =>
      cases j with
      | zero => simp [Nat.testBit_add_one]
      | succ k => simp [Nat.testBit_add_one]

/-- Claim C7 counterexample: `riscv_pmu_del` itself invokes
`pmu->stop(event, PERF_EF_UPDATE)` — on a running event (state 0) the
deletion leaves the event with the `STOPPED` and `UPTODATE` bits set
(state 3), the effect of the stop that `del` performed. -/
theorem c7_counterexample :
    (riscv_pmu_del riscv_base_pmu (fun _ => 0)
        { n_events := 1, used_cntr_mask := set_bit 3 0,
          events := fun _ => none }
        { attr_type := 4, attr_config := 5,
          hw := { config_base := RISCV_PMU_TYPE_EVENT, config := 5, idx := 3,
                  state := 0, prev_count := 0 }, count := 0 }
        0).stop_invoked = true ∧
    (riscv_pmu_del riscv_base_pmu (fun _ => 0)
        { n_events := 1, used_cntr_mask := set_bit 3 0,
          events := fun _ => none }
        { attr_type := 4, attr_config := 5,
          hw := { config_base := RISCV_PMU_TYPE_EVENT, config := 5, idx := 3,
                  state := 0, prev_count := 0 }, count := 0 }
        0).event.hw.state = 3 := by
  refine ⟨rfl, by decide⟩

/-- Claim C7 (amended): for every event bound to a slot, `del`
decrements the core's active event count and clears the slot-occupancy
bit for that event — and `del` itself then invokes `stop` with update
requested (it does not leave stopping to the caller). -/
theorem c7_del_releases_slot :
    ∀ (pmu : RiscvPMU) (csr : Int → Nat) (cpuc : CpuHwEvents)
      (event : PerfEvent) (flags : Nat),
      0 ≤ event.hw.idx → event.hw.idx < 64 →
      (riscv_pmu_del pmu csr cpuc event flags).cpuc.n_events =
        cpuc.n_events - 1 ∧
      ((riscv_pmu_del pmu csr cpuc event
          flags).cpuc.used_cntr_mask).testBit event.hw.idx.toNat = false ∧
      (riscv_pmu_del pmu csr cpuc event flags).stop_invoked = true := by
  intro pmu csr cpuc event flags h0 h64
  refine ⟨rfl, ?_, rfl⟩
  show (clear_bit event.hw.idx.toNat cpuc.used_cntr_mask).testBit
    event.hw.idx.toNat = false
  exact testBit_clear_bit _ _ (by omega)

/-- Witness for the amended C7 at a concrete bound event (slot 3). -/
theorem c7_del_releases_slot_witness :
    (riscv_pmu_del riscv_base_pmu (fun _ => 1)
        { n_events := 2, used_cntr_mask := set_bit 3 (set_bit 4 0),
          events := fun _ => none }
        { attr_type := 4, attr_config := 6,
          hw := { config_base := RISCV_PMU_TYPE_EVENT, config := 6, idx := 3,
                  state := 1, prev_count := 0 }, count := 0 }
        0).cpuc.n_events =
      ({ n_events := 2, used_cntr_mask := set_bit 3 (set_bit 4 0),
          events := fun _ => none } : CpuHwEvents).n_events - 1 ∧
    ((riscv_pmu_del riscv_base_pmu (fun _ => 1)
        { n_events := 2, used_cntr_mask := set_bit 3 (set_bit 4 0),
          events := fun _ => none }
        { attr_type := 4, attr_config := 6,
          hw := { config_base := RISCV_PMU_TYPE_EVENT, config := 6, idx := 3,
                  state := 1, prev_count := 0 }, count := 0 }
        0).cpuc.used_cntr_mask).testBit
      (({ attr_type := 4, attr_config := 6,
          hw := { config_base := RISCV_PMU_TYPE_EVENT, config := 6, idx := 3,
                  state := 1, prev_count := 0 }, count := 0 } :
        PerfEvent).hw.idx.toNat) = false ∧
    (riscv_pmu_del riscv_base_pmu (fun _ => 1)
        { n_events := 2, used_cntr_mask := set_bit 3 (set_bit 4 0),
          events := fun _ => none }
        { attr_type := 4, attr_config := 6,
          hw := { config_base := RISCV_PMU_TYPE_EVENT, config := 6, idx := 3,
                  state := 1, prev_count := 0 }, count := 0 }
        0).stop_invoked = true :=
  c7_del_releases_slot riscv_base_pmu (fun _ => 1)
    { n_events := 2, used_cntr_mask := set_bit 3 (set_bit 4 0),
      events := fun _ => none }
    { attr_type := 4, attr_config := 6,
      hw := { config_base := RISCV_PMU_TYPE_EVENT, config := 6, idx := 3,
              state := 1, prev_count := 0 }, count := 0 }
    0 (by decide) (by decide)

/-- Claim C8 counterexample: stopping an event that is already in the
`Stopped` state (state 1, bound to generic slot 3, update requested)
still performs the disable and, because the count is not up to date,
also performs a count update — it is not the claimed no-op. -/
theorem c8_counterexample :
    (riscv_pmu_stop riscv_base_pmu (fun _ => 0)
        { attr_type := 4, attr_config := 5,
          hw := { config_base := RISCV_PMU_TYPE_EVENT, config := 5, idx := 3,
                  state := 1, prev_count := 0 }, count := 0 }
        PERF_EF_UPDATE).disable_invoked = true ∧
    (riscv_pmu_stop riscv_base_pmu (fun _ => 0)
        { attr_type := 4, attr_config := 5,
          hw := { config_base := RISCV_PMU_TYPE_EVENT, config := 5, idx := 3,
                  state := 1, prev_count := 0 }, count := 0 }
        PERF_EF_UPDATE).read_invoked = true := by
  refine ⟨by decide, by decide⟩

/-- Claim C8 (amended): `start` on an event not in the `Stopped` state
is a diagnosed no-op (no enable, no baseline reset, event unchanged);
`stop` on an event already in the `Stopped` state is diagnosed but still
performs the disable, performs a count update exactly when an update is
requested and the count is not yet up to date, and leaves the event in
the `Stopped` state. -/
theorem c8_invalid_transitions :
    ∀ (pmu : RiscvPMU) (csr : Int → Nat) (event : PerfEvent) (flags : Nat),
      (event.hw.state &&& PERF_HES_STOPPED = 0 →
        riscv_pmu_start pmu csr event flags =
          { event := event, enable_invoked := false }) ∧
      (event.hw.state &&& PERF_HES_STOPPED ≠ 0 → event.hw.idx ≠ -1 →
        (riscv_pmu_stop pmu csr event flags).disable_invoked = true ∧
        ((riscv_pmu_stop pmu csr event flags).read_invoked = true ↔
          (flags &&& PERF_EF_UPDATE ≠ 0 ∧
            event.hw.state &&& PERF_HES_UPTODATE = 0)) ∧
        (riscv_pmu_stop pmu csr event flags).event.hw.state &&&
          PERF_HES_STOPPED ≠ 0) := by
  intro pmu csr event flags
  constructor
  · intro h
    unfold riscv_pmu_start
    rw [if_pos h]
  · intro hstopped hidx
    unfold riscv_pmu_stop
    rw [if_neg hidx]
    simp only [riscv_pmu_disable_event]
    by_cases hc : flags &&& PERF_EF_UPDATE ≠ 0 ∧
        (event.hw.state ||| PERF_HES_STOPPED) &&& PERF_HES_UPTODATE = 0
    · rw [if_pos hc]
      refine ⟨rfl, ?_, ?_⟩
      · show (true = true) ↔ _
        constructor
        · intro _
          refine ⟨hc.1, ?_⟩
          have h2 := hc.2
          rw [state_or_stopped_and_uptodate] at h2
          exact h2
        · intro _
          rfl
      · show ((event.hw.state ||| PERF_HES_STOPPED) |||
          PERF_HES_UPTODATE) &&& PERF_HES_STOPPED ≠ 0
        rw [state_or_stopped_uptodate_and_stopped]
        decide
    · rw [if_neg hc]
      refine ⟨rfl, ?_, ?_⟩
      · show (false = true) ↔ _
        constructor
        · intro h
          cases h
        · intro hr
          exact absurd ⟨hr.1, by
            rw [state_or_stopped_and_uptodate]; exact hr.2⟩ hc
      · show (event.hw.state ||| PERF_HES_STOPPED) &&&
          PERF_HES_STOPPED ≠ 0
        rw [state_or_stopped_and_stopped]
        decide

/-- Witness for the amended C8: a running event (state 0) is returned
unchanged by `start`; a stopped event (state 1, slot 3) keeps its
`STOPPED` bit across `stop`. -/
theorem c8_invalid_transitions_witness :
    riscv_pmu_start riscv_base_pmu (fun _ => 0)
        { attr_type := 4, attr_config := 5,
          hw := { config_base := RISCV_PMU_TYPE_EVENT, config := 5, idx := 3,
                  state := 0, prev_count := 0 }, count := 0 } 0 =
      { event :=
          { attr_type := 4, attr_config := 5,
            hw := { config_base := RISCV_PMU_TYPE_EVENT, config := 5,
                    idx := 3, state := 0, prev_count := 0 }, count := 0 }
        enable_invoked := false } ∧
    (riscv_pmu_stop riscv_base_pmu (fun _ => 0)
        { attr_type := 4, attr_config := 5,
          hw := { config_base := RISCV_PMU_TYPE_EVENT, config := 5, idx := 3,
                  state := 1, prev_count := 0 }, count := 0 }
        0).disable_invoked = true :=
  ⟨(c8_invalid_transitions riscv_base_pmu (fun _ => 0)
      { attr_type := 4, attr_config := 5,
        hw := { config_base := RISCV_PMU_TYPE_EVENT, config := 5, idx := 3,
                state := 0, prev_count := 0 }, count := 0 } 0).1 (by decide),
    ((c8_invalid_transitions riscv_base_pmu (fun _ => 0)
      { attr_type := 4, attr_config := 5,
        hw := { config_base := RISCV_PMU_TYPE_EVENT, config := 5, idx := 3,
                state := 1, prev_count := 0 }, count := 0 } 0).2
      (by decide) (by decide)).1⟩

/-! Helper lemmas for the slot allocator. -/

/-- `find_next_bit` returns the lowest set bit at or above `offset`
when one exists below `size`. -/
theorem find_next_bit_found (mask size : Nat) :
    ∀ (d off f : Nat), f = off + d → f < size → mask.testBit f = true →
      (∀ j, off ≤ j → j < f → mask.testBit j = false) →
      find_next_bit mask size off = f := by
  intro d
  induction d with
  | zero =>
      intro off f hf hsize hset _
      rw [find_next_bit.eq_def]
      rw [if_pos (by omega : off < size)]
      have hoe : off = f := by omega
      rw [hoe, if_pos hset]
  | succ d ih =>
      intro off f hf hsize hset hbelow
      rw [find_next_bit.eq_def]
      rw [if_pos (by omega : off < size)]
      have hoff : mask.testBit off = false :=
        hbelow off (Nat.le_refl _) (by omega)
      rw [if_neg (by simp [hoff])]
      exact ih (off + 1) f (by omega) hsize hset
        (fun j hj1 hj2 => hbelow j (by omega) hj2)

/-- `find_next_bit` returns `size` when no bit in `[offset, size)` is
set. -/
theorem find_next_bit_none (mask size : Nat) :
    ∀ (d off : Nat), d = size - off →
      (∀ j, off ≤ j → j < size → mask.testBit j = false) →
      find_next_bit mask size off = size := by
  intro d
  induction d with
  | zero =>
      intro off hd _
      rw [find_next_bit.eq_def]
      rw [if_neg (by omega : ¬ off < size)]
  | succ d ih =>
      intro off hd hall
      rw [find_next_bit.eq_def]
      rw [if_pos (by omega : off < size)]
      rw [if_neg (by simp [hall off (Nat.le_refl _) (by omega)])]
      exact ih (off + 1) (by omega) (fun j h1 h2 => hall j (by omega) h2)

/-- The allocator's scan bound for a PMU with at least one generic
counter. -/
theorem hpmcounter_last_toNat (n : Nat) (h : 1 ≤ n) :
    (RISCV_PMU_HPMCOUNTER_LAST n).toNat = n + 2 := by
  unfold RISCV_PMU_HPMCOUNTER_LAST RISCV_PMU_HPMCOUNTER_FIRST
  omega

/-- Claim C9: generic-slot allocation is deterministic lowest-free-bit:
whenever a free generic slot exists, `get_available_counter` returns the
lowest-numbered free bit of the occupancy bitmap within the generic
range (bits 3 through `HPMCOUNTER_LAST`) and marks it used; and on an
otherwise-idle core, allocate / release / allocate returns the same
slot (3) both times. -/
theorem c9_lowest_free_slot :
    ∀ (pmu : RiscvPMU) (cpuc : CpuHwEvents) (event : PerfEvent),
      1 ≤ pmu.num_event_cntr → pmu.num_event_cntr ≤ 29 →
      event.hw.config_base &&& RISCV_PMU_TYPE_MASK = RISCV_PMU_TYPE_EVENT →
      (∀ f : Nat, 3 ≤ f → f ≤ pmu.num_event_cntr + 2 →
        cpuc.used_cntr_mask.testBit f = false →
        (∀ j, 3 ≤ j → j < f → cpuc.used_cntr_mask.testBit j = true) →
        (get_available_counter pmu cpuc event).2 = (f : Int) ∧
        (get_available_counter pmu cpuc event).1.used_cntr_mask =
          set_bit f cpuc.used_cntr_mask) ∧
      (cpuc.used_cntr_mask = 0 →
        (get_available_counter pmu cpuc event).2 = 3 ∧
        ∀ cpuc2 : CpuHwEvents,
          cpuc2.used_cntr_mask =
            clear_bit 3
              (get_available_counter pmu cpuc event).1.used_cntr_mask →
          (get_available_counter pmu cpuc2 event).2 = 3) := by
  intro pmu cpuc event h1 h29 hcb
  have hgen : ∀ (cp : CpuHwEvents) (f : Nat), 3 ≤ f →
      f ≤ pmu.num_event_cntr + 2 →
      cp.used_cntr_mask.testBit f = false →
      (∀ j, 3 ≤ j → j < f → cp.used_cntr_mask.testBit j = true) →
      (get_available_counter pmu cp event).2 = (f : Int) ∧
      (get_available_counter pmu cp event).1.used_cntr_mask =
        set_bit f cp.used_cntr_mask := by
    intro cp f hf3 hfle hfree hbelow
    have hfind : find_next_bit (not64 cp.used_cntr_mask)
        (RISCV_PMU_HPMCOUNTER_LAST pmu.num_event_cntr).toNat 3 = f := by
      rw [hpmcounter_last_toNat _ h1]
      by_cases hflt : f < pmu.num_event_cntr + 2
      · refine find_next_bit_found _ _ (f - 3) 3 f (by omega) hflt ?_ ?_
        · rw [testBit_not64 _ _ (by omega), hfree]
          rfl
        · intro j hj1 hj2
          rw [testBit_not64 _ _ (by omega), hbelow j hj1 hj2]
          rfl
      · have hfeq : f = pmu.num_event_cntr + 2 := by omega
        subst hfeq
        refine find_next_bit_none _ _ (pmu.num_event_cntr + 2 - 3) 3
          (by omega) ?_
        intro j hj1 hj2
        rw [testBit_not64 _ _ (by omega), hbelow j hj1 (by omega)]
        rfl
    have hvalid : is_event_counter pmu
        ((find_next_bit (not64 cp.used_cntr_mask)
          (RISCV_PMU_HPMCOUNTER_LAST pmu.num_event_cntr).toNat 3 : Nat) :
          Int) = true := by
      rw [hfind]
      simp only [is_event_counter, RISCV_PMU_HPMCOUNTER_LAST,
        RISCV_PMU_HPMCOUNTER_FIRST, Bool.and_eq_true, decide_eq_true_eq]
      refine ⟨?_, ?_⟩ <;> omega
    unfold get_available_counter
    rw [hcb]
    rw [if_neg (by decide : ¬ RISCV_PMU_TYPE_EVENT = RISCV_PMU_TYPE_BASE)]
    rw [if_pos rfl]
    dsimp only
    rw [if_neg (by simp [hvalid])]
    rw [hfind]
    exact ⟨rfl, rfl⟩
  refine ⟨hgen cpuc, ?_⟩
  intro hzero
  have first := hgen cpuc 3 (Nat.le_refl _) (by omega)
    (by rw [hzero]; simp)
    (fun j hj1 hj2 => absurd (Nat.lt_of_le_of_lt hj1 hj2) (Nat.lt_irrefl 3))
  refine ⟨first.1, ?_⟩
  intro cpuc2 hmask2
  have hm2 : cpuc2.used_cntr_mask = 0 := by
    rw [hmask2, first.2, hzero]
    decide
  have second := hgen cpuc2 3 (Nat.le_refl _) (by omega)
    (by rw [hm2]; simp)
    (fun j hj1 hj2 => absurd (Nat.lt_of_le_of_lt hj1 hj2) (Nat.lt_irrefl 3))
  exact second.1

/-- Witness for C9 on a PMU with six generic counters and an idle core:
the first allocation takes slot 3. -/
theorem c9_lowest_free_slot_witness :
    (get_available_counter { riscv_base_pmu with num_event_cntr := 6 }
        { n_events := 0, used_cntr_mask := 0, events := fun _ => none }
        { attr_type := 4, attr_config := 5,
          hw := { config_base := RISCV_PMU_TYPE_EVENT, config := 5,
                  idx := -1, state := 0, prev_count := 0 },
          count := 0 }).2 = 3 :=
  ((c9_lowest_free_slot { riscv_base_pmu with num_event_cntr := 6 }
      { n_events := 0, used_cntr_mask := 0, events := fun _ => none }
      { attr_type := 4, attr_config := 5,
        hw := { config_base := RISCV_PMU_TYPE_EVENT, config := 5,
                idx := -1, state := 0, prev_count := 0 },
        count := 0 } (by decide) (by decide) (by decide)).2 rfl).1

end RiscvPerf
